import Mathlib

/-!
Verification of the BrainKick server's answer-validation and progress-tracking
logic (`server/src/index.js`), as a shallow embedding in Lean 4.

Modelling conventions:
* JS strings are Lean `String`s; the answers and ids in play are BMP text, so
  JS `.length` (UTF-16 units), `toLowerCase` and `trim` coincide with the
  character-level operations defined below.
* Calendar days (the result of `Date.toDateString()`) are modelled as `Int`
  day numbers; `yesterday` is `today - 1`.
* The MongoDB branch and the in-memory branch of `updateStreak` and
  `updateLevelProgress` perform the same record transformation (the code is
  duplicated line for line, differing only in how the record is loaded and
  persisted), so each is embedded once as a pure function on the record.
* A storage failure (a throwing `save()`) is modelled by a boolean flag: the
  code catches the exception inside the updater, so the store keeps its old
  contents and the caller proceeds.
* Fields not touched by the embedded operations and not mentioned by any
  property (`updatedAt`, `totalTimeSpent`, `createdAt`, `userId`) are elided,
  as are the puzzle catalog's pure-text fields (`title`, `prompt`, `hint`,
  `explanation`), whose content no embedded operation inspects.
-/

/-! ### JS string primitives -/

/-- `c` is one of the whitespace characters JS `trim` / `\s` handles on the
ASCII range (the only range the catalog and the matcher exercise). -/
def jsWhitespace (c : Char) : Bool :=
  c = ' ' || c = '\t' || c = '\n' || c = '\r' || c = '\x0b' || c = '\x0c'

/-- JS `String.prototype.toLowerCase` on BMP text: each character lowered. -/
def toLowerStr (s : String) : String :=
  ⟨s.data.map Char.toLower⟩

/-- JS `String.prototype.trim`: strip leading and trailing whitespace. -/
def trimStr (s : String) : String :=
  ⟨((s.data.dropWhile jsWhitespace).reverse.dropWhile jsWhitespace).reverse⟩

/-- `answer.toLowerCase().trim()` — the first step of the validate route. -/
def jsLowerTrim (s : String) : String :=
  trimStr (toLowerStr s)

/-- The punctuation class of the route's `.replace(/[.,!?;]/g, '')`. -/
def isPunct (c : Char) : Bool :=
  c = '.' || c = ',' || c = '!' || c = '?' || c = ';'

/-- `.replace(/\s+/g, ' ')`: each maximal whitespace run becomes one space.
The boolean records whether the previous character was part of a run. -/
def collapseWsAux : Bool → List Char → List Char
  | _, [] => []
  | prevWs, c :: rest =>
    if jsWhitespace c then
      if prevWs then collapseWsAux true rest
      else ' ' :: collapseWsAux true rest
    else c :: collapseWsAux false rest

/-- The word `w` sits at the head of `l` and is followed by a whitespace
character — one alternative of the route's `/^(a|an|the)\s+/i` (its input is
already lower-cased, so literal matching suffices). -/
def articleAt (w l : List Char) : Bool :=
  w.isPrefixOf l &&
    (match l.drop w.length with
     | c :: _ => jsWhitespace c
     | [] => false)

/-- `.replace(/^(a|an|the)\s+/i, '')` with the regex's backtracking order:
the matched article and the greedy whitespace run after it are dropped. -/
def stripLeadingArticle (l : List Char) : List Char :=
  if articleAt ['a'] l then (l.drop 1).dropWhile jsWhitespace
  else if articleAt ['a', 'n'] l then (l.drop 2).dropWhile jsWhitespace
  else if articleAt ['t', 'h', 'e'] l then (l.drop 3).dropWhile jsWhitespace
  else l

/-- The route's normalization pass (applied to an already lower-cased,
trimmed string): remove punctuation, collapse whitespace, strip a leading
article. -/
def normalizeAnswer (s : String) : String :=
  ⟨stripLeadingArticle (collapseWsAux false (s.data.filter (fun c => !isPunct c)))⟩

/-- Substring search on character lists, JS `String.prototype.includes`. -/
def containsSub (s sub : List Char) : Bool :=
  sub.isPrefixOf s ||
    match s with
    | [] => false
    | _ :: t => containsSub t sub

/-- `s.includes(sub)`. -/
def jsIncludes (s sub : String) : Bool :=
  containsSub s.data sub.data

/-- `normalizedUser.match(/^\d+$/)` is non-null: non-empty and all digits. -/
def matchesDigits (s : String) : Bool :=
  !s.data.isEmpty && s.data.all (fun c => c.isDigit)

/-! ### Puzzle and the answer matcher (validate route, lines 1185–1255) -/

/-- One catalog entry. The pure-text fields (`title`, `prompt`, `hint`,
`explanation`) are elided: no embedded operation inspects their content. -/
structure Puzzle where
  _id : String
  category : String
  level : Nat
  position : Nat
  correctAnswers : List String
deriving DecidableEq

/-- Lines 1186–1189: trimmed, lower-cased equality against any accepted
answer. -/
def exactMatch (puzzle : Puzzle) (answer : String) : Bool :=
  let userAnswer := jsLowerTrim answer
  puzzle.correctAnswers.any (fun correctAnswer => jsLowerTrim correctAnswer == userAnswer)

/-- The first disjunct of the flexible pass alone: normalized equality
(line 1206). -/
def normalizedMatch (puzzle : Puzzle) (answer : String) : Bool :=
  let normalizedUser := normalizeAnswer (jsLowerTrim answer)
  puzzle.correctAnswers.any
    (fun correctAnswer => normalizeAnswer (jsLowerTrim correctAnswer) == normalizedUser)

/-- Lines 1193–1212: the flexible pass run when the exact match fails —
normalized equality, the digits heuristic (the digit string must occur in the
accepted answer's lower-cased raw text), and the one-directional substring
heuristic (`normalizedCorrect.includes(normalizedUser)` for a user answer
longer than 3 characters). -/
def flexibleMatch (puzzle : Puzzle) (answer : String) : Bool :=
  let userAnswer := jsLowerTrim answer
  let normalizedUser := normalizeAnswer userAnswer
  puzzle.correctAnswers.any (fun correctAnswer =>
    let normalizedCorrect := normalizeAnswer (jsLowerTrim correctAnswer)
    normalizedCorrect == normalizedUser
    || (matchesDigits normalizedUser && jsIncludes (toLowerStr correctAnswer) normalizedUser)
    || (decide (normalizedUser.length > 3) && jsIncludes normalizedCorrect normalizedUser))

/-- `correct` after the two local passes (`correct = exactMatch; if (!correct)
correct = puzzle.correctAnswers.some(...)`). -/
def localCorrect (puzzle : Puzzle) (answer : String) : Bool :=
  exactMatch puzzle answer || flexibleMatch puzzle answer

/-- Lines 1249–1250: the AI reply (when OpenAI is configured, invoked, and
did not throw) counts as correct when it starts with "correct" after
lower-casing. `none` covers a missing key, a skipped call and a caught
`aiError` alike. -/
def aiSaysCorrect : Option String → Bool
  | some reply => "correct".data.isPrefixOf (toLowerStr reply).data
  | none => false

/-- The route's final `correct`: the local passes, then the AI fallback. -/
def decideCorrect (puzzle : Puzzle) (answer : String) (aiReply : Option String) : Bool :=
  localCorrect puzzle answer || aiSaysCorrect aiReply

/-! ### Streak tracker (`updateStreak`, lines 121–228) -/

/-- The per-user streak record (both storage branches). -/
structure StreakRec where
  currentStreak : Nat
  longestStreak : Nat
  lastActivityDate : Option Int
  totalPuzzlesSolved : Nat
  solvedPuzzles : List String
  solvedHistory : List (String × Int)
deriving DecidableEq

/-- The record as lazily created (`new Streak({...})` / the memory literal). -/
def freshStreak : StreakRec :=
  { currentStreak := 0
    longestStreak := 0
    lastActivityDate := none
    totalPuzzlesSolved := 0
    solvedPuzzles := []
    solvedHistory := [] }

/-- One `updateStreak(userId, puzzleId)` call on a loaded record: the
duplicate guard (`if (puzzleId && ... .includes(puzzleId)) return`), the
calendar-day logic, and the total/history bookkeeping, exactly as both
branches write them. `puzzleId ≠ ""` is JS truthiness of the id. -/
def updateStreak (today now : Int) (puzzleId : String) (streak : StreakRec) : StreakRec :=
  if puzzleId ≠ "" ∧ puzzleId ∈ streak.solvedPuzzles then streak
  else
    let s1 :=
      if streak.lastActivityDate ≠ some today then
        let cur :=
          match streak.lastActivityDate with
          | some last => if last = today - 1 then streak.currentStreak + 1 else 1
          | none => 1
        { streak with
            currentStreak := cur
            longestStreak := max streak.longestStreak cur
            lastActivityDate := some today }
      else streak
    let s2 := { s1 with totalPuzzlesSolved := s1.totalPuzzlesSolved + 1 }
    if puzzleId ≠ "" then
      { s2 with
          solvedPuzzles := s2.solvedPuzzles ++ [puzzleId]
          solvedHistory := s2.solvedHistory ++ [(puzzleId, now)] }
    else s2

/-- A sequence of `updateStreak` calls, each carrying its day, timestamp and
puzzle id. -/
def runSolves (calls : List (Int × Int × String)) (streak : StreakRec) : StreakRec :=
  calls.foldl (fun s c => updateStreak c.1 c.2.1 c.2.2 s) streak

/-! ### Level progress tracker (`updateLevelProgress`, lines 230–306) -/

/-- The per-(user, category, level) progress record. -/
structure LevelProgressRec where
  puzzlesSolved : Nat
  totalPuzzles : Nat
  completed : Bool
  solvedPuzzleIds : List String
  completedAt : Option Int
deriving DecidableEq

/-- The lazily created record (`totalPuzzles: 5` in both branches and in the
schema default). -/
def freshLevelProgress : LevelProgressRec :=
  { puzzlesSolved := 0
    totalPuzzles := 5
    completed := false
    solvedPuzzleIds := []
    completedAt := none }

/-- One `updateLevelProgress` call on a loaded record: skip an already
counted puzzle, otherwise append, recount, and complete the level when the
count reaches `totalPuzzles`. -/
def updateLevelProgress (now : Int) (puzzleId : String) (progress : LevelProgressRec) :
    LevelProgressRec :=
  if puzzleId ∈ progress.solvedPuzzleIds then progress
  else
    let ids := progress.solvedPuzzleIds ++ [puzzleId]
    let solved := ids.length
    if solved ≥ progress.totalPuzzles ∧ progress.completed = false then
      { progress with
          solvedPuzzleIds := ids
          puzzlesSolved := solved
          completed := true
          completedAt := some now }
    else
      { progress with solvedPuzzleIds := ids, puzzlesSolved := solved }

/-- A sequence of `updateLevelProgress` calls on one record. -/
def runProgressSolves (calls : List (Int × String)) (progress : LevelProgressRec) :
    LevelProgressRec :=
  calls.foldl (fun p c => updateLevelProgress c.1 c.2 p) progress

/-! ### The static puzzle catalog (lines 309–1002)

Each entry keeps its `_id`, `category`, `level`, `position` and
`correctAnswers` exactly as written; only the display-text fields are
elided (see the header note). -/

/-- `puzzles.math[1]`. -/
def mathLevel1 : List Puzzle :=
  [⟨"math-1-0", "math", 1, 0, ["42", "forty-two", "forty two"]⟩,
   ⟨"math-1-1", "math", 1, 1, ["56", "fifty-six", "fifty six"]⟩,
   ⟨"math-1-2", "math", 1, 2, ["12", "twelve"]⟩,
   ⟨"math-1-3", "math", 1, 3, ["46", "forty-six", "forty six"]⟩,
   ⟨"math-1-4", "math", 1, 4, ["11", "eleven"]⟩]

/-- `puzzles.math[2]`. -/
def mathLevel2 : List Puzzle :=
  [⟨"math-2-0", "math", 2, 0, ["1", "one", "4/4", "1.0"]⟩,
   ⟨"math-2-1", "math", 2, 1, ["20", "twenty"]⟩,
   ⟨"math-2-2", "math", 2, 2, ["8", "eight"]⟩,
   ⟨"math-2-3", "math", 2, 3, ["24", "twenty-four", "twenty four"]⟩,
   ⟨"math-2-4", "math", 2, 4, ["7", "seven"]⟩]

/-- `puzzles.math[3]`. -/
def mathLevel3 : List Puzzle :=
  [⟨"math-3-0", "math", 3, 0, ["1/2", "0.5", "half", "one half"]⟩,
   ⟨"math-3-1", "math", 3, 1, ["5 and -5", "-5 and 5", "±5", "plus or minus 5"]⟩,
   ⟨"math-3-2", "math", 3, 2, ["121", "$121", "121 dollars"]⟩,
   ⟨"math-3-3", "math", 3, 3, ["1", "one"]⟩,
   ⟨"math-3-4", "math", 3, 4, ["3", "three"]⟩]

/-- `puzzles.logic[1]`. -/
def logicLevel1 : List Puzzle :=
  [⟨"logic-1-0", "logic", 1, 0, ["10", "ten"]⟩,
   ⟨"logic-1-1", "logic", 1, 1, ["carrot"]⟩,
   ⟨"logic-1-2", "logic", 1, 2, ["yes", "Yes", "true", "True"]⟩,
   ⟨"logic-1-3", "logic", 1, 3, ["I", "i"]⟩,
   ⟨"logic-1-4", "logic", 1, 4, ["Thursday", "thursday"]⟩]

/-- `puzzles.logic[2]`. -/
def logicLevel2 : List Puzzle :=
  [⟨"logic-2-0", "logic", 2, 0, ["13", "thirteen"]⟩,
   ⟨"logic-2-1", "logic", 2, 1, ["no", "false", "invalid", "incorrect"]⟩,
   ⟨"logic-2-2", "logic", 2, 2, ["4", "four"]⟩,
   ⟨"logic-2-3", "logic", 2, 3, ["8", "eight"]⟩,
   ⟨"logic-2-4", "logic", 2, 4, ["false", "FALSE", "False"]⟩]

/-- `puzzles.logic[3]`. -/
def logicLevel3 : List Puzzle :=
  [⟨"logic-3-0", "logic", 3, 0, ["36", "thirty-six", "thirty six"]⟩,
   ⟨"logic-3-1", "logic", 3, 1, ["neither", "impossible", "paradox", "contradiction"]⟩,
   ⟨"logic-3-2", "logic", 3, 2, ["P implies R", "p implies r", "P → R"]⟩,
   ⟨"logic-3-3", "logic", 3, 3, ["6", "six"]⟩,
   ⟨"logic-3-4", "logic", 3, 4, ["contradiction", "Contradiction", "paradox"]⟩]

/-- `puzzles.riddles[1]`. -/
def riddlesLevel1 : List Puzzle :=
  [⟨"riddles-1-0", "riddles", 1, 0, ["keyboard", "Keyboard", "a keyboard"]⟩,
   ⟨"riddles-1-1", "riddles", 1, 1, ["towel", "Towel", "a towel"]⟩,
   ⟨"riddles-1-2", "riddles", 1, 2, ["candle", "Candle", "a candle"]⟩,
   ⟨"riddles-1-3", "riddles", 1, 3, ["clock", "Clock", "a clock", "watch", "a watch"]⟩,
   ⟨"riddles-1-4", "riddles", 1, 4, ["age", "Age", "your age"]⟩]

/-- `puzzles.riddles[2]`. -/
def riddlesLevel2 : List Puzzle :=
  [⟨"riddles-2-0", "riddles", 2, 0, ["he is short", "too short", "cant reach", "short", "height"]⟩,
   ⟨"riddles-2-1", "riddles", 2, 1, ["silence", "Silence"]⟩,
   ⟨"riddles-2-2", "riddles", 2, 2, ["map", "Map", "a map"]⟩,
   ⟨"riddles-2-3", "riddles", 2, 3, ["m", "M", "letter m", "the letter m"]⟩,
   ⟨"riddles-2-4", "riddles", 2, 4, ["footsteps", "Footsteps", "steps"]⟩]

/-- `puzzles.riddles[3]`. -/
def riddlesLevel3 : List Puzzle :=
  [⟨"riddles-3-0", "riddles", 3, 0,
    ["grandfather father son", "three generations", "grandpa dad son", "3 people"]⟩,
   ⟨"riddles-3-1", "riddles", 3, 1, ["seven", "Seven", "7"]⟩,
   ⟨"riddles-3-2", "riddles", 3, 2, ["stamp", "Stamp", "a stamp", "postage stamp"]⟩,
   ⟨"riddles-3-3", "riddles", 3, 3, ["fire", "Fire", "flame"]⟩,
   ⟨"riddles-3-4", "riddles", 3, 4, ["silence", "Silence"]⟩]

/-- `puzzles.patterns[1]`. -/
def patternsLevel1 : List Puzzle :=
  [⟨"patterns-1-0", "patterns", 1, 0, ["triangle", "Triangle"]⟩,
   ⟨"patterns-1-1", "patterns", 1, 1, ["blue", "Blue"]⟩,
   ⟨"patterns-1-2", "patterns", 1, 2, ["16", "sixteen"]⟩,
   ⟨"patterns-1-3", "patterns", 1, 3, ["I", "i"]⟩,
   ⟨"patterns-1-4", "patterns", 1, 4, ["15", "fifteen"]⟩]

/-- `puzzles.patterns[2]`. -/
def patternsLevel2 : List Puzzle :=
  [⟨"patterns-2-0", "patterns", 2, 0, ["42", "forty-two"]⟩,
   ⟨"patterns-2-1", "patterns", 2, 1, ["16", "sixteen"]⟩,
   ⟨"patterns-2-2", "patterns", 2, 2, ["13", "thirteen"]⟩,
   ⟨"patterns-2-3", "patterns", 2, 3, ["243", "two hundred forty-three"]⟩,
   ⟨"patterns-2-4", "patterns", 2, 4, ["29", "twenty-nine"]⟩]

/-- `puzzles.patterns[3]`. -/
def patternsLevel3 : List Puzzle :=
  [⟨"patterns-3-0", "patterns", 3, 0, ["720", "seven hundred twenty"]⟩,
   ⟨"patterns-3-1", "patterns", 3, 1, ["125", "one hundred twenty-five"]⟩,
   ⟨"patterns-3-2", "patterns", 3, 2, ["10", "ten"]⟩,
   ⟨"patterns-3-3", "patterns", 3, 3, ["13", "thirteen"]⟩,
   ⟨"patterns-3-4", "patterns", 3, 4, ["252", "two hundred fifty-two"]⟩]

/-- The catalog: `{category → {level → puzzles}}`, in the object's iteration
order (insertion order for the category keys, ascending numeric order for the
level keys). -/
def puzzles : List (String × List (Nat × List Puzzle)) :=
  [("math", [(1, mathLevel1), (2, mathLevel2), (3, mathLevel3)]),
   ("logic", [(1, logicLevel1), (2, logicLevel2), (3, logicLevel3)]),
   ("riddles", [(1, riddlesLevel1), (2, riddlesLevel2), (3, riddlesLevel3)]),
   ("patterns", [(1, patternsLevel1), (2, patternsLevel2), (3, patternsLevel3)])]

/-- The catalog flattened in the nested-loop order of the lookup code. -/
def allPuzzles : List Puzzle :=
  (puzzles.map (fun cat => (cat.2.map (fun lv => lv.2)).flatten)).flatten

/-- The validate route's lookup (lines 1171–1179): the first puzzle whose
`_id` is the route parameter. -/
def findPuzzle (puzzleId : String) : Option Puzzle :=
  allPuzzles.find? (fun p => p._id == puzzleId)

/-! ### The validate route (lines 1165–1309) and the per-user store -/

/-- The requesting user's slice of the store: the streak record (if one was
ever created) and the level-progress records keyed by (category, level). -/
structure UserState where
  streak : Option StreakRec
  progress : List ((String × Nat) × LevelProgressRec)
deriving DecidableEq

/-- The store-level effect of one `updateStreak` call: load or lazily create
the record and apply the update; when the store write throws
(`storeFails = true`) the exception is caught inside `updateStreak`
(lines 225–228) and the store keeps its old contents. -/
def applyStreakUpdate (storeFails : Bool) (today now : Int) (puzzleId : String)
    (streak : Option StreakRec) : Option StreakRec :=
  if storeFails then streak
  else some (updateStreak today now puzzleId (streak.getD freshStreak))

/-- `LevelProgress.findOne({userId, category, level})` /
`memoryLevelProgress.find(...)` on the user's slice. -/
def lookupProgress (entries : List ((String × Nat) × LevelProgressRec))
    (category : String) (level : Nat) : Option LevelProgressRec :=
  (entries.find? (fun e => e.1.1 == category && e.1.2 == level)).map (fun e => e.2)

/-- Writing a (category, level) record back: replace the existing entry or
append a new one. -/
def storeProgress (entries : List ((String × Nat) × LevelProgressRec))
    (category : String) (level : Nat) (p : LevelProgressRec) :
    List ((String × Nat) × LevelProgressRec) :=
  if entries.any (fun e => e.1.1 == category && e.1.2 == level) then
    entries.map (fun e =>
      if e.1.1 == category && e.1.2 == level then ((category, level), p) else e)
  else entries ++ [((category, level), p)]

/-- The store-level effect of one `updateLevelProgress` call, with the same
caught-failure convention as `applyStreakUpdate` (lines 303–306). -/
def applyProgressUpdate (storeFails : Bool) (now : Int) (category : String) (level : Nat)
    (puzzleId : String) (entries : List ((String × Nat) × LevelProgressRec)) :
    List ((String × Nat) × LevelProgressRec) :=
  if storeFails then entries
  else
    storeProgress entries category level
      (updateLevelProgress now puzzleId
        ((lookupProgress entries category level).getD freshLevelProgress))

/-- The validate route's reply: 404 with an error body, or 200 with the
`correct` flag and `message` (the real body also carries an `explanation`
string, always present — `puzzle.explanation || fallback` — whose text is
elided with the catalog's display fields). -/
inductive ValidateResponse where
  | notFound (error : String)
  | ok (correct : Bool) (message : String)
deriving DecidableEq

/-- Line 1296: the wrong-answer message built from an AI reply,
`aiResponse.split('INCORRECT')[1]?.trim() || 'Try again!'`. -/
def aiIncorrectMessage (reply : String) : String :=
  match (reply.splitOn "INCORRECT").get? 1 with
  | some tailPiece =>
      if trimStr tailPiece = "" then "Not quite right. Try again! 🤔"
      else "Not quite right. " ++ trimStr tailPiece ++ " 🤔"
  | none => "Not quite right. Try again! 🤔"

/-- `POST /api/puzzles/:id/validate` for an authenticated user: look the
puzzle up, decide correctness (local passes, then the optional AI reply),
update streak and level progress only when correct, and answer. `aiReply` is
the AI's reply content when OpenAI was configured and its call succeeded
(`none` otherwise; when the local passes succeed it is never consulted,
matching the `!correct && openai` guard). -/
def validateHandler (aiReply : Option String) (streakStoreFails progressStoreFails : Bool)
    (today now : Int) (puzzleId answer : String) (st : UserState) :
    ValidateResponse × UserState :=
  match findPuzzle puzzleId with
  | none => (ValidateResponse.notFound "Puzzle not found", st)
  | some puzzle =>
    let correct := decideCorrect puzzle answer aiReply
    let st' :=
      if correct then
        { streak := applyStreakUpdate streakStoreFails today now puzzleId st.streak
          progress :=
            applyProgressUpdate progressStoreFails now puzzle.category puzzle.level
              puzzleId st.progress }
      else st
    let message :=
      if correct then "Excellent work! 🎉"
      else
        -- reaching here means the local passes failed, so when `aiReply` is
        -- present it is the consulted `aiResponse`
        match aiReply with
        | some reply => aiIncorrectMessage reply
        | none => "Not quite right. Give it another try!"
    (ValidateResponse.ok correct message, st')

/-- The category/level grid of `GET /api/progress` (lines 1536–1537). -/
def progressCategories : List String := ["math", "logic", "riddles", "patterns"]

/-- The level list of `GET /api/progress`. -/
def progressLevels : List Nat := [1, 2, 3]

/-- The store-level effect of `GET /api/progress` on the user's slice
(lines 1574–1609): default records are appended for the (category, level)
pairs that have none; existing records are returned untouched. -/
def ensureProgressDefaults (entries : List ((String × Nat) × LevelProgressRec)) :
    List ((String × Nat) × LevelProgressRec) :=
  entries ++
    (((progressCategories.map (fun c => progressLevels.map (fun l => (c, l)))).flatten.filter
        (fun cl => !entries.any (fun e => e.1.1 == cl.1 && e.1.2 == cl.2))).map
      (fun cl => (cl, freshLevelProgress)))

/-! ### Helper lemmas -/

/-- `updateStreak` never records an empty puzzle id: the only push is guarded
by the id's truthiness. -/
lemma empty_not_in_updateStreak (t n : Int) (pid : String) (s : StreakRec)
    (h : "" ∉ s.solvedPuzzles) : "" ∉ (updateStreak t n pid s).solvedPuzzles := by
  unfold updateStreak
  split_ifs with h1 h2 h3 <;> simp_all [eq_comm]

/-- The no-empty-id invariant along any call sequence. -/
lemma empty_not_in_runSolves (calls : List (Int × Int × String)) (s : StreakRec)
    (h : "" ∉ s.solvedPuzzles) : "" ∉ (runSolves calls s).solvedPuzzles := by
  induction calls generalizing s with
  | nil => exact h
  | cons c cs ih =>
      exact ih (updateStreak c.1 c.2.1 c.2.2 s) (empty_not_in_updateStreak _ _ _ _ h)

/-- C2: updateStreak is idempotent per puzzle — for a record produced by any
sequence of updateStreak calls from a fresh record, a further call with a
puzzleId already in `solvedPuzzles` returns the record entirely unchanged. -/
theorem updateStreak_idempotent_on_solved (calls : List (Int × Int × String))
    (t n : Int) (pid : String)
    (h : pid ∈ (runSolves calls freshStreak).solvedPuzzles) :
    updateStreak t n pid (runSolves calls freshStreak) = runSolves calls freshStreak := by
  have hne : pid ≠ "" := by
    intro hpid
    exact empty_not_in_runSolves calls freshStreak (by simp [freshStreak]) (hpid ▸ h)
  unfold updateStreak
  rw [if_pos ⟨hne, h⟩]

/-- Witness for C2: solve `math-1-0`, then a duplicate call is a no-op. -/
theorem updateStreak_idempotent_on_solved_witness :
    updateStreak 7 8 "math-1-0" (runSolves [(0, 1, "math-1-0")] freshStreak)
      = runSolves [(0, 1, "math-1-0")] freshStreak :=
  updateStreak_idempotent_on_solved [(0, 1, "math-1-0")] 7 8 "math-1-0" (by decide)

/-- One non-empty-id `updateStreak` call preserves the streak invariants
`currentStreak ≤ longestStreak` and `totalPuzzlesSolved = |solvedHistory|`. -/
lemma streak_inv_step (t n : Int) (pid : String) (s : StreakRec) (hpid : pid ≠ "")
    (h1 : s.currentStreak ≤ s.longestStreak)
    (h2 : s.totalPuzzlesSolved = s.solvedHistory.length) :
    (updateStreak t n pid s).currentStreak ≤ (updateStreak t n pid s).longestStreak
      ∧ (updateStreak t n pid s).totalPuzzlesSolved
          = (updateStreak t n pid s).solvedHistory.length := by
  unfold updateStreak
  split_ifs with hdup hday <;> simp_all

/-- C4: after any sequence of updateStreak calls (each with a puzzleId)
starting from a fresh record, `longestStreak ≥ currentStreak` and
`totalPuzzlesSolved` equals the length of `solvedHistory`. -/
theorem streak_invariants (calls : List (Int × Int × String))
    (hids : ∀ c ∈ calls, c.2.2 ≠ "") :
    (runSolves calls freshStreak).longestStreak ≥ (runSolves calls freshStreak).currentStreak
      ∧ (runSolves calls freshStreak).totalPuzzlesSolved
          = (runSolves calls freshStreak).solvedHistory.length := by
  suffices h : ∀ s : StreakRec, s.currentStreak ≤ s.longestStreak →
      s.totalPuzzlesSolved = s.solvedHistory.length →
      (runSolves calls s).currentStreak ≤ (runSolves calls s).longestStreak
        ∧ (runSolves calls s).totalPuzzlesSolved = (runSolves calls s).solvedHistory.length by
    exact h freshStreak (by simp [freshStreak]) (by simp [freshStreak])
  induction calls with
  | nil => exact fun s h1 h2 => ⟨h1, h2⟩
  | cons c cs ih =>
      intro s h1 h2
      have hc := hids c (List.mem_cons_self c cs)
      have hstep := streak_inv_step c.1 c.2.1 c.2.2 s hc h1 h2
      exact ih (fun d hd => hids d (List.mem_cons_of_mem c hd)) _ hstep.1 hstep.2

/-- Witness for C4: two solves on consecutive days. -/
theorem streak_invariants_witness :
    (runSolves [(0, 1, "math-1-0"), (1, 2, "math-1-1")] freshStreak).longestStreak
        ≥ (runSolves [(0, 1, "math-1-0"), (1, 2, "math-1-1")] freshStreak).currentStreak
      ∧ (runSolves [(0, 1, "math-1-0"), (1, 2, "math-1-1")] freshStreak).totalPuzzlesSolved
          = (runSolves [(0, 1, "math-1-0"), (1, 2, "math-1-1")] freshStreak).solvedHistory.length :=
  streak_invariants [(0, 1, "math-1-0"), (1, 2, "math-1-1")] (by decide)


/-- C5: streak continuity for a newly solved puzzle — yesterday increments
`currentStreak` by 1, an earlier or unset `lastActivityDate` resets it to 1,
today leaves `currentStreak` unchanged while `totalPuzzlesSolved` still
increments by 1, and whenever the day changed `lastActivityDate` becomes
today. -/
theorem streak_day_continuity (t n : Int) (pid : String) (s : StreakRec)
    (hnew : pid ∉ s.solvedPuzzles) :
    (s.lastActivityDate = some (t - 1) →
        (updateStreak t n pid s).currentStreak = s.currentStreak + 1
          ∧ (updateStreak t n pid s).lastActivityDate = some t)
    ∧ (∀ d : Int, s.lastActivityDate = some d → d ≠ t → d ≠ t - 1 →
        (updateStreak t n pid s).currentStreak = 1
          ∧ (updateStreak t n pid s).lastActivityDate = some t)
    ∧ (s.lastActivityDate = none →
        (updateStreak t n pid s).currentStreak = 1
          ∧ (updateStreak t n pid s).lastActivityDate = some t)
    ∧ (s.lastActivityDate = some t →
        (updateStreak t n pid s).currentStreak = s.currentStreak
          ∧ (updateStreak t n pid s).totalPuzzlesSolved = s.totalPuzzlesSolved + 1) := by
  have hguard : ¬(pid ≠ "" ∧ pid ∈ s.solvedPuzzles) := fun h => hnew h.2
  refine ⟨fun hy => ?_, fun d hd hdt hdy => ?_, fun hn => ?_, fun ht => ?_⟩
  · have hne : s.lastActivityDate ≠ some t := by rw [hy]; simp
    simp [updateStreak, hguard, hne, hy, apply_ite StreakRec.currentStreak,
      apply_ite StreakRec.lastActivityDate]
  · have hne : s.lastActivityDate ≠ some t := by rw [hd]; simp [hdt]
    simp [updateStreak, hguard, hne, hd, hdt, hdy, apply_ite StreakRec.currentStreak,
      apply_ite StreakRec.lastActivityDate]
  · have hne : s.lastActivityDate ≠ some t := by rw [hn]; simp
    simp [updateStreak, hguard, hne, hn, apply_ite StreakRec.currentStreak,
      apply_ite StreakRec.lastActivityDate]
  · simp [updateStreak, hguard, ht, apply_ite StreakRec.currentStreak,
      apply_ite StreakRec.totalPuzzlesSolved]

/-- Witness for C5: the very first solve (no `lastActivityDate`) sets
`currentStreak` to 1 and stamps the day. -/
theorem streak_day_continuity_witness :
    (updateStreak 5 9 "math-1-0" freshStreak).currentStreak = 1
      ∧ (updateStreak 5 9 "math-1-0" freshStreak).lastActivityDate = some 5 :=
  (streak_day_continuity 5 9 "math-1-0" freshStreak (by decide)).2.2.1 (by decide)

/-- One `updateLevelProgress` call preserves the count and completion
invariants `puzzlesSolved = |solvedPuzzleIds|` and
`completed = (puzzlesSolved ≥ totalPuzzles)`. -/
lemma levelProgress_inv_step (now : Int) (pid : String) (p : LevelProgressRec)
    (h1 : p.puzzlesSolved = p.solvedPuzzleIds.length)
    (h2 : p.completed = decide (p.puzzlesSolved ≥ p.totalPuzzles)) :
    (updateLevelProgress now pid p).puzzlesSolved
        = (updateLevelProgress now pid p).solvedPuzzleIds.length
      ∧ (updateLevelProgress now pid p).completed
          = decide ((updateLevelProgress now pid p).puzzlesSolved
              ≥ (updateLevelProgress now pid p).totalPuzzles) := by
  obtain ⟨ps, tot, comp, ids, cAt⟩ := p
  simp only at h1 h2
  subst h1
  unfold updateLevelProgress
  by_cases hdup : pid ∈ ids
  · simp_all
  · simp_all only [if_neg hdup]
    split_ifs with hcomp <;> simp_all <;> omega

/-- `completed` is never reverted by a later `updateLevelProgress` call. -/
lemma levelProgress_completed_mono (now : Int) (pid : String) (p : LevelProgressRec)
    (h : p.completed = true) : (updateLevelProgress now pid p).completed = true := by
  unfold updateLevelProgress
  split_ifs with hdup hcomp <;> simp_all

/-- `completed` is never reverted along a whole call sequence. -/
lemma runProgressSolves_completed_mono (calls : List (Int × String)) (p : LevelProgressRec)
    (h : p.completed = true) : (runProgressSolves calls p).completed = true := by
  induction calls generalizing p with
  | nil => exact h
  | cons c cs ih => exact ih _ (levelProgress_completed_mono c.1 c.2 p h)

/-- `GET /api/progress` only appends defaults: an existing (category, level)
record is found unchanged afterwards. -/
lemma ensureProgressDefaults_preserves (entries : List ((String × Nat) × LevelProgressRec))
    (c : String) (l : Nat) (q : LevelProgressRec)
    (h : lookupProgress entries c l = some q) :
    lookupProgress (ensureProgressDefaults entries) c l = some q := by
  unfold lookupProgress at *
  unfold ensureProgressDefaults
  obtain ⟨e, he, rfl⟩ := Option.map_eq_some'.mp h
  rw [List.find?_append, he]
  rfl

/-- C3: for any record reachable by `updateLevelProgress` calls from a fresh
record, `completed` equals `puzzlesSolved ≥ totalPuzzles` — so it turns true
exactly at the call on which the count first reaches `totalPuzzles` — no
later solve reverts it, and a `GET /api/progress` query returns existing
records untouched. -/
theorem levelProgress_completion (calls : List (Int × String)) :
    ((runProgressSolves calls freshLevelProgress).completed
        = decide ((runProgressSolves calls freshLevelProgress).puzzlesSolved
            ≥ (runProgressSolves calls freshLevelProgress).totalPuzzles))
    ∧ (∀ more : List (Int × String),
        (runProgressSolves calls freshLevelProgress).completed = true →
        (runProgressSolves more (runProgressSolves calls freshLevelProgress)).completed = true)
    ∧ (∀ (entries : List ((String × Nat) × LevelProgressRec)) (c : String) (l : Nat)
        (q : LevelProgressRec), lookupProgress entries c l = some q →
        lookupProgress (ensureProgressDefaults entries) c l = some q) := by
  refine ⟨?_, fun more h => runProgressSolves_completed_mono more _ h,
    fun entries c l q h => ensureProgressDefaults_preserves entries c l q h⟩
  suffices h : ∀ p : LevelProgressRec, p.puzzlesSolved = p.solvedPuzzleIds.length →
      p.completed = decide (p.puzzlesSolved ≥ p.totalPuzzles) →
      (runProgressSolves calls p).puzzlesSolved
          = (runProgressSolves calls p).solvedPuzzleIds.length
        ∧ (runProgressSolves calls p).completed
            = decide ((runProgressSolves calls p).puzzlesSolved
                ≥ (runProgressSolves calls p).totalPuzzles) by
    exact (h freshLevelProgress (by simp [freshLevelProgress])
      (by simp [freshLevelProgress])).2
  induction calls with
  | nil => exact fun p h1 h2 => ⟨h1, h2⟩
  | cons c cs ih =>
      intro p h1 h2
      have hstep := levelProgress_inv_step c.1 c.2 p h1 h2
      exact ih _ hstep.1 hstep.2

/-- Witness for C3: five distinct solves complete the level (5 ≥ 5), a sixth
call keeps it completed, and a query preserves an existing record. -/
theorem levelProgress_completion_witness :
    ((runProgressSolves [(0, "p1"), (0, "p2"), (0, "p3"), (0, "p4"), (0, "p5")]
        freshLevelProgress).completed
      = decide ((runProgressSolves [(0, "p1"), (0, "p2"), (0, "p3"), (0, "p4"), (0, "p5")]
            freshLevelProgress).puzzlesSolved
          ≥ (runProgressSolves [(0, "p1"), (0, "p2"), (0, "p3"), (0, "p4"), (0, "p5")]
              freshLevelProgress).totalPuzzles))
    ∧ (runProgressSolves [(1, "p6")]
        (runProgressSolves [(0, "p1"), (0, "p2"), (0, "p3"), (0, "p4"), (0, "p5")]
          freshLevelProgress)).completed = true
    ∧ lookupProgress (ensureProgressDefaults [(("math", 1), freshLevelProgress)]) "math" 1
        = some freshLevelProgress :=
  ⟨(levelProgress_completion [(0, "p1"), (0, "p2"), (0, "p3"), (0, "p4"), (0, "p5")]).1,
   (levelProgress_completion [(0, "p1"), (0, "p2"), (0, "p3"), (0, "p4"), (0, "p5")]).2.1
     [(1, "p6")] (by decide),
   (levelProgress_completion []).2.2 [(("math", 1), freshLevelProgress)] "math" 1
     freshLevelProgress (by decide)⟩

/-- C1: for every catalog puzzle and every answer whose trimmed, lower-cased
form equals that of some accepted answer, the exact-match step already
succeeds, and the route's decision is correct = true whatever the external
validator would have said. -/
theorem exactMatch_implies_validates (p : Puzzle) (hp : p ∈ allPuzzles) (answer : String)
    (h : ∃ ca ∈ p.correctAnswers, jsLowerTrim ca = jsLowerTrim answer) :
    exactMatch p answer = true
      ∧ ∀ aiReply : Option String, decideCorrect p answer aiReply = true := by
  obtain ⟨ca, hmem, heq⟩ := h
  have hex : exactMatch p answer = true := by
    unfold exactMatch
    simp only [List.any_eq_true]
    exact ⟨ca, hmem, by simp [heq]⟩
  refine ⟨hex, fun aiReply => ?_⟩
  unfold decideCorrect localCorrect
  simp [hex]

/-- Witness for C1: `" 42 "` against `math-1-0`. -/
theorem exactMatch_implies_validates_witness :
    exactMatch ⟨"math-1-0", "math", 1, 0, ["42", "forty-two", "forty two"]⟩ " 42 " = true
      ∧ decideCorrect ⟨"math-1-0", "math", 1, 0, ["42", "forty-two", "forty two"]⟩ " 42 " none
          = true :=
  ⟨(exactMatch_implies_validates ⟨"math-1-0", "math", 1, 0, ["42", "forty-two", "forty two"]⟩
      (by decide) " 42 " (by decide)).1,
   (exactMatch_implies_validates ⟨"math-1-0", "math", 1, 0, ["42", "forty-two", "forty two"]⟩
      (by decide) " 42 " (by decide)).2 none⟩

/-- C10: every (category, level) entry of the static catalog holds exactly 5
puzzles — the default `totalPuzzles` of a fresh level-progress record — all
60 `_id`s are globally distinct, and looking any catalog puzzle's id up finds
exactly that puzzle. -/
theorem catalog_shape :
    (∀ cat ∈ puzzles, ∀ lv ∈ cat.2, lv.2.length = freshLevelProgress.totalPuzzles)
      ∧ (allPuzzles.map Puzzle._id).Nodup
      ∧ ∀ p ∈ allPuzzles, findPuzzle p._id = some p := by
  refine ⟨by decide, by decide, by decide⟩

/-- C8: an unknown `:id` yields the 404 error reply with the store untouched;
a known `:id` yields the 200 reply carrying the correct flag and message
(and, per the response shape, the ever-present explanation text). -/
theorem validate_status_codes (aiReply : Option String) (sf pf : Bool) (t n : Int)
    (pid answer : String) (st : UserState) :
    (findPuzzle pid = none →
      validateHandler aiReply sf pf t n pid answer st
        = (ValidateResponse.notFound "Puzzle not found", st))
    ∧ ∀ puzzle : Puzzle, findPuzzle pid = some puzzle →
        ∃ c m, (validateHandler aiReply sf pf t n pid answer st).1
          = ValidateResponse.ok c m := by
  constructor
  · intro h
    unfold validateHandler
    rw [h]
  · intro puzzle h
    unfold validateHandler
    rw [h]
    exact ⟨_, _, rfl⟩

/-- Witness for C8: an unknown id 404s without touching the store; a known id
gets a 200 reply. -/
theorem validate_status_codes_witness :
    validateHandler none false false 0 0 "no-such-id" "42" ⟨none, []⟩
        = (ValidateResponse.notFound "Puzzle not found", ⟨none, []⟩)
      ∧ ∃ c m, (validateHandler none false false 0 0 "math-1-0" "42" ⟨none, []⟩).1
          = ValidateResponse.ok c m :=
  ⟨(validate_status_codes none false false 0 0 "no-such-id" "42" ⟨none, []⟩).1 (by decide),
   (validate_status_codes none false false 0 0 "math-1-0" "42" ⟨none, []⟩).2
     ⟨"math-1-0", "math", 1, 0, ["42", "forty-two", "forty two"]⟩ (by decide)⟩

/-- C9: when the computed correctness is false, the request leaves the user's
streak record and every level-progress record exactly as they were. -/
theorem incorrect_answer_frames_state (aiReply : Option String) (sf pf : Bool) (t n : Int)
    (pid answer : String) (st : UserState) (puzzle : Puzzle)
    (hfind : findPuzzle pid = some puzzle)
    (hwrong : decideCorrect puzzle answer aiReply = false) :
    (validateHandler aiReply sf pf t n pid answer st).2 = st := by
  unfold validateHandler
  rw [hfind]
  simp [hwrong]

/-- Witness for C9: a wrong answer to `math-1-0` changes nothing. -/
theorem incorrect_answer_frames_state_witness :
    (validateHandler none false false 0 0 "math-1-0" "wrong" ⟨some freshStreak, []⟩).2
      = ⟨some freshStreak, []⟩ :=
  incorrect_answer_frames_state none false false 0 0 "math-1-0" "wrong"
    ⟨some freshStreak, []⟩ ⟨"math-1-0", "math", 1, 0, ["42", "forty-two", "forty two"]⟩
    (by decide) (by decide)

/-- C6: when the answer is judged correct, the reply is the 200 success body
whatever the storage flags say, and a failing streak or progress write is
caught and simply not applied. -/
theorem validate_swallows_storage_failures (aiReply : Option String) (sf pf : Bool)
    (t n : Int) (pid answer : String) (st : UserState) (puzzle : Puzzle)
    (hfind : findPuzzle pid = some puzzle)
    (hcorrect : decideCorrect puzzle answer aiReply = true) :
    (validateHandler aiReply sf pf t n pid answer st).1
        = ValidateResponse.ok true "Excellent work! 🎉"
      ∧ (sf = true → (validateHandler aiReply sf pf t n pid answer st).2.streak = st.streak)
      ∧ (pf = true → (validateHandler aiReply sf pf t n pid answer st).2.progress
          = st.progress) := by
  refine ⟨?_, fun hsf => ?_, fun hpf => ?_⟩ <;>
    · unfold validateHandler
      rw [hfind]
      simp_all [applyStreakUpdate, applyProgressUpdate]

/-- Witness for C6: a correct answer with both stores failing still gets the
success reply and leaves the store as it was. -/
theorem validate_swallows_storage_failures_witness :
    (validateHandler none true true 0 0 "math-1-0" "42" ⟨none, []⟩).1
        = ValidateResponse.ok true "Excellent work! 🎉"
      ∧ (validateHandler none true true 0 0 "math-1-0" "42" ⟨none, []⟩).2.streak = none
      ∧ (validateHandler none true true 0 0 "math-1-0" "42" ⟨none, []⟩).2.progress = [] :=
  ⟨(validate_swallows_storage_failures none true true 0 0 "math-1-0" "42" ⟨none, []⟩
      ⟨"math-1-0", "math", 1, 0, ["42", "forty-two", "forty two"]⟩ (by decide) (by decide)).1,
   (validate_swallows_storage_failures none true true 0 0 "math-1-0" "42" ⟨none, []⟩
      ⟨"math-1-0", "math", 1, 0, ["42", "forty-two", "forty two"]⟩ (by decide) (by decide)).2.1
     rfl,
   (validate_swallows_storage_failures none true true 0 0 "math-1-0" "42" ⟨none, []⟩
      ⟨"math-1-0", "math", 1, 0, ["42", "forty-two", "forty two"]⟩ (by decide) (by decide)).2.2
     rfl⟩

/-- C7 counterexample: for catalog puzzle `math-1-0` and the answer
`"forty two extra"`, exact and normalized comparison fail and the accepted
answer's normalized text `"forty two"` IS a substring of the normalized
answer (the claim's vice-versa direction), yet the decision is
correct = false: the code only tests
`normalizedCorrect.includes(normalizedUser)`, never the reverse. -/
theorem substring_vice_versa_fails :
    (⟨"math-1-0", "math", 1, 0, ["42", "forty-two", "forty two"]⟩ : Puzzle) ∈ allPuzzles
      ∧ exactMatch ⟨"math-1-0", "math", 1, 0, ["42", "forty-two", "forty two"]⟩
          "forty two extra" = false
      ∧ normalizedMatch ⟨"math-1-0", "math", 1, 0, ["42", "forty-two", "forty two"]⟩
          "forty two extra" = false
      ∧ (∃ ca ∈ (["42", "forty-two", "forty two"] : List String),
          jsIncludes (normalizeAnswer (jsLowerTrim "forty two extra"))
            (normalizeAnswer (jsLowerTrim ca)) = true)
      ∧ localCorrect ⟨"math-1-0", "math", 1, 0, ["42", "forty-two", "forty two"]⟩
          "forty two extra" = false
      ∧ decideCorrect ⟨"math-1-0", "math", 1, 0, ["42", "forty-two", "forty two"]⟩
          "forty two extra" none = false := by
  decide

/-- C7 as amended: when exact and normalized comparison fail, a normalized
user answer longer than 3 characters that is a substring of some accepted
answer's normalized text (the forward direction only — the code has no
vice-versa check) makes the decision correct = true. -/
theorem substring_forward_validates (p : Puzzle) (answer : String)
    (hexact : exactMatch p answer = false)
    (hnorm : normalizedMatch p answer = false)
    (hlen : (normalizeAnswer (jsLowerTrim answer)).length > 3)
    (hsub : ∃ ca ∈ p.correctAnswers,
        jsIncludes (normalizeAnswer (jsLowerTrim ca))
          (normalizeAnswer (jsLowerTrim answer)) = true) :
    localCorrect p answer = true := by
  obtain ⟨ca, hmem, hinc⟩ := hsub
  have hflex : flexibleMatch p answer = true := by
    unfold flexibleMatch
    simp only [List.any_eq_true]
    refine ⟨ca, hmem, ?_⟩
    simp [hlen, hinc]
  unfold localCorrect
  simp [hflex]

/-- Witness for the amended C7: `"orty-tw"` (7 characters, inside
`"forty-two"`) is accepted for `math-1-0` although no exact or normalized
match holds. -/
theorem substring_forward_validates_witness :
    localCorrect ⟨"math-1-0", "math", 1, 0, ["42", "forty-two", "forty two"]⟩ "orty-tw"
      = true :=
  substring_forward_validates ⟨"math-1-0", "math", 1, 0, ["42", "forty-two", "forty two"]⟩
    "orty-tw" (by decide) (by decide) (by decide) (by decide)
